import Mathlib

/-!
Shallow embedding of the stateless authenticated-session core of the
estatement service: credential verification, symmetric token issuance and
verification, login/refresh orchestration, bearer-token extraction and
request-scoped claims propagation.

Time is modelled in seconds as `Nat`.  The PASETO v4-local primitive
(library `aidanwoods.dev/go-paseto`, not part of this repository) is
modelled symbolically: an encrypted token is the pair of its payload and
the symmetric key it was encrypted under, and decryption succeeds exactly
under that key.  bcrypt is likewise modelled symbolically.
-/

namespace EStmt

/-- The claims payload embedded in a token, field for field the Go struct
`Claims` of internal/auth/auth.go (id, username, productName). -/
structure Claims where
  ID : String
  Username : String
  ProductName : String
deriving DecidableEq, Repr

/-- The credential-store identity, field for field the Go struct `User`
(id, username, productName, unexported password verifier, createdAt). -/
structure User where
  ID : String
  Username : String
  ProductName : String
  password : String
  CreatedAt : Nat
deriving DecidableEq, Repr

/-- A PASETO v4 symmetric key, identified opaquely. Distinct identifiers
model independent keys. -/
structure SymmetricKey where
  keyId : Nat
deriving DecidableEq, Repr

/-- The token envelope built by `genToken` before encryption: subject,
issued-at, not-before, expiration, footer (the issuance timestamp), and
the value stored under the claim name "profile" (`none` models a token in
whose payload no decodable profile claim exists). -/
structure TokenData where
  subject : String
  issuedAt : Nat
  notBefore : Nat
  expiration : Nat
  footer : Nat
  profile : Option Claims
deriving DecidableEq, Repr

/-- Symbolic model of a PASETO v4-local encrypted token string: the
payload together with the key that encrypted it. -/
structure EncryptedToken where
  payload : TokenData
  key : SymmetricKey
deriving DecidableEq, Repr

/-- Model of `token.V4Encrypt(key, nil)`. -/
def V4Encrypt (payload : TokenData) (key : SymmetricKey) : EncryptedToken :=
  ⟨payload, key⟩

/-- The two failure categories of token verification named by the spec. -/
inductive TokenError
  | invalid
  | expired
deriving DecidableEq, Repr

/-- Modelled from the spec: `Verify`/`ParseV4Local` of the TokenCodec,
whose implementation (the go-paseto parser with rules `NotExpired` and
`ValidAt(now)`) is not part of this repository.  Per spec section 4.2 it
decrypts and authenticates under the domain key, failing with
`TokenInvalid` when authentication fails, and fails with `TokenExpired`
when `now` is before the not-before time or at or after the expiration
timestamp (invariant (b) of section 3: a token whose expiration timestamp
is at or before verification time is rejected). -/
def parseV4Local (key : SymmetricKey) (tok : EncryptedToken) (now : Nat) :
    Except TokenError TokenData :=
  if tok.key = key then
    if now < tok.payload.notBefore then .error .expired
    else if tok.payload.expiration ≤ now then .error .expired
    else .ok tok.payload
  else .error .invalid

/-- Modelled from the spec: `Issue(claims, expiresAt, keyDomain)` of the
TokenCodec builds the envelope with issued-at `now`, not-before `now`,
subject the claims' username, the claims payload under "profile", an
audit footer carrying the issuance timestamp, and encrypts it under the
domain key. -/
def issue (c : Claims) (now expiresAt : Nat) (key : SymmetricKey) : EncryptedToken :=
  V4Encrypt ⟨c.Username, now, now, expiresAt, now, some c⟩ key

/-- Modelled from the spec: `Verify(tokenString, keyDomain, now)` returns
the embedded Claims on success; a token that carries no decodable claims
payload is structurally invalid. -/
def verify (key : SymmetricKey) (tok : EncryptedToken) (now : Nat) :
    Except TokenError Claims :=
  match parseV4Local key tok now with
  | .error e => .error e
  | .ok td =>
    match td.profile with
    | some c => .ok c
    | none => .error .invalid

/-- Symbolic rendering of a bcrypt hash of `pw` as a verifier string (real
bcrypt output is a dollar-delimited version/cost/salt/digest string). -/
def bcryptHashString (pw : String) : String :=
  "$2a$10$" ++ pw

/-- Model of `bcrypt.GenerateFromPassword`: produce the bcrypt verifier
string of the given byte string. -/
def bcryptGenerateFromPassword (pw : String) : String :=
  bcryptHashString pw

/-- Model of `bcrypt.CompareHashAndPassword(verifier, pw) == nil`: the
verifier is the bcrypt hash of `pw`. -/
def bcryptCompareOK (verifier pw : String) : Bool :=
  verifier == bcryptHashString pw

/-- The Go method `User.Compare` of internal/auth/auth.go, as written: it
bcrypt-hashes the STORED field `u.password` and then compares the supplied
password against that fresh hash. -/
def User.Compare (u : User) (password : String) : Bool :=
  bcryptCompareOK (bcryptGenerateFromPassword u.password) password

/-- The spec's contract for the PasswordVerifier (section 4.1): hash the
supplied plaintext and compare against the stored verifier directly,
never re-hashing the stored verifier. -/
def compareContract (storedVerifier suppliedPlaintext : String) : Bool :=
  bcryptCompareOK storedVerifier suppliedPlaintext

/-- The outward token pair, field for field the Go struct `Token`
(accessToken, refreshToken). -/
structure Token where
  AccessToken : EncryptedToken
  RefreshToken : EncryptedToken
deriving DecidableEq, Repr

/-- The Go function `Auth.genToken`: one envelope (subject = username,
iat = nbf = now, footer = now), claims set under "profile", encrypted
under the access key with expiration now + 1 hour, then re-encrypted
under the refresh key with expiration now + 7 * 24 hours. -/
def genToken (aKey rKey : SymmetricKey) (user : User) (now : Nat) : Token :=
  let base : TokenData :=
    ⟨user.Username, now, now, now + 3600, now,
      some ⟨user.ID, user.Username, user.ProductName⟩⟩
  let aToken := V4Encrypt base aKey
  let rToken := V4Encrypt { base with expiration := now + 7 * 24 * 3600 } rKey
  ⟨aToken, rToken⟩

/-- The failure modes of the credential-store lookup
`getUserByUsername`: `userNotFound` models `ErrUserNotFound` (sql:
no rows), `dbError` any other store error. -/
inductive LookupError
  | userNotFound
  | dbError (msg : String)
deriving DecidableEq, Repr

/-- The credential store abstracted over as in spec section 6:
`LookupByUsername(username)` returns the Identity or an error. -/
abbrev Db := String → Except LookupError User

/-- The gRPC status codes the auth service emits. -/
inductive Code
  | unauthenticated
  | permissionDenied
deriving DecidableEq, Repr

/-- A service-level error: a gRPC status (code and message) or a
propagated internal error. -/
inductive SvcError
  | rpc (code : Code) (msg : String)
  | internal (e : LookupError)
deriving DecidableEq, Repr

/-- The uniform rejection message of Login and RefreshToken. -/
def credsNotValidMsg : String :=
  "Your credentials not valid. Please check and try again."

/-- The one uniform authentication-failure value every credential or
token failure collapses to. -/
def authFailed : SvcError :=
  .rpc .unauthenticated credsNotValidMsg

/-- The Go struct `LoginReq`. -/
structure LoginReq where
  Username : String
  Password : String
deriving DecidableEq, Repr

/-- The Go method `Auth.Login`: look the user up by username (unknown
user collapses to the uniform rejection, any other store error
propagates), compare the password (mismatch, like a hashing error in the
source, collapses to the same uniform rejection), then issue the pair. -/
def Login (db : Db) (aKey rKey : SymmetricKey) (now : Nat) (req : LoginReq) :
    Except SvcError Token :=
  match db req.Username with
  | .error .userNotFound => .error authFailed
  | .error e => .error (.internal e)
  | .ok user =>
    if User.Compare user req.Password then .ok (genToken aKey rKey user now)
    else .error authFailed

/-- The refresh request; the source carries the refresh token string. -/
structure NewTokenReq where
  Token : EncryptedToken
deriving DecidableEq, Repr

/-- The Go method `Auth.RefreshToken`: parse the presented token under
the refresh-domain key at the current time, extract the "profile" claims,
re-resolve the identity by the claims' username, and issue a fresh pair;
a parse failure, a claims-extraction failure, or an unknown username all
collapse to the uniform rejection, while other store errors propagate. -/
def RefreshToken (db : Db) (aKey rKey : SymmetricKey) (now : Nat)
    (req : NewTokenReq) : Except SvcError Token :=
  match parseV4Local rKey req.Token now with
  | .error _ => .error authFailed
  | .ok td =>
    match td.profile with
    | none => .error authFailed
    | some claims =>
      match db claims.Username with
      | .error .userNotFound => .error authFailed
      | .error e => .error (.internal e)
      | .ok user => .ok (genToken aKey rKey user now)

/-- The values a Go `context.Context` entry can carry at a key: a claims
pointer or something of any other dynamic type (whose type assertion to
a claims pointer fails). -/
inductive CtxVal
  | claimsVal (c : Claims)
  | otherVal (n : Nat)
deriving DecidableEq, Repr

/-- A Go `context.Context` chain of WithValue entries, innermost first;
`Value` returns the innermost entry for a key. -/
def Context := List (Nat × CtxVal)

/-- Model of `ctx.Value(key)`: innermost entry for the key, if any. -/
def ctxValue (ctx : Context) (key : Nat) : Option CtxVal :=
  match ctx with
  | [] => none
  | (k, v) :: rest => if k = key then some v else ctxValue rest key

/-- The package-level context key `claimsKey` (iota 0 of `ctxKey`). -/
def claimsKey : Nat := 0

/-- The Go function `ContextWithClaims`: derive a new context carrying
the claims at `claimsKey`; the original chain is the untouched tail. -/
def ContextWithClaims (ctx : Context) (c : Claims) : Context :=
  (claimsKey, .claimsVal c) :: ctx

/-- The zero-value `Claims` (all fields empty strings). -/
def zeroClaims : Claims := ⟨"", "", ""⟩

/-- The Go function `ClaimsFromContext`: the innermost claims value at
`claimsKey`, or the zero value when the entry is absent or its type
assertion fails. -/
def ClaimsFromContext (ctx : Context) : Claims :=
  match ctxValue ctx claimsKey with
  | some (.claimsVal c) => c
  | _ => zeroClaims

/-- The permission-denied message of `Auth.Profile`. -/
def profileDeniedMsg : String :=
  "You are not allowed to access this user (or it may not exist)."

/-- The Go method `Auth.Profile`: re-resolve the identity for the
username in the current request's claims; an unknown username becomes a
permission-denied status, other store errors propagate. -/
def Profile (db : Db) (ctx : Context) : Except SvcError User :=
  match db (ClaimsFromContext ctx).Username with
  | .error .userNotFound => .error (.rpc .permissionDenied profileDeniedMsg)
  | .error e => .error (.internal e)
  | .ok user => .ok user

/-- Go `auth[:n]` on the header value (byte slicing; modelled on the
character list of the string, which coincides for ASCII headers). -/
def strTake (s : String) (n : Nat) : String :=
  ⟨s.data.take n⟩

/-- Go `auth[n:]`. -/
def strDrop (s : String) (n : Nat) : String :=
  ⟨s.data.drop n⟩

/-- Go `len(auth)`. -/
def strLen (s : String) : Nat :=
  s.data.length

/-- The extractor error message of `pasetoFromHeader`. -/
def malformedMsg : String :=
  "missing or malformed paseto"

/-- The Go closure returned by `pasetoFromHeader`, applied to the value
of the configured request header (an absent header reads as the empty
string): when the value is longer than `len(scheme)+1` and its first
`len(scheme)` bytes equal the scheme it yields the substring from
position `len(scheme)+1`, otherwise the no-credential error. -/
def pasetoFromHeader (authScheme auth : String) : Except String String :=
  if strLen auth > strLen authScheme + 1 ∧ strTake auth (strLen authScheme) = authScheme then
    .ok (strDrop auth (strLen authScheme + 1))
  else .error malformedMsg

/-- The claim's reading of the extractor contract: the header must be
exactly the scheme literal, one space, and a non-empty token, in which
case the token after the space is the credential. -/
def bearerContract (authScheme auth : String) : Option String :=
  if strLen auth > strLen authScheme + 1 ∧
      strTake auth (strLen authScheme + 1) = authScheme ++ " " then
    some (strDrop auth (strLen authScheme + 1))
  else none

/-- What the echo context slot "token" can hold after the PASETO
middleware ran: the parsed token set by `c.Set(cfg.ContextKey, token)`,
or a value of some other dynamic type. -/
inductive EchoVal
  | tok (t : TokenData)
  | other (n : Nat)
deriving DecidableEq, Repr

/-- The Go function `parseTokenToClaims`: a nil token gives the zero
claims; otherwise `token.Get("profile", &c)` is called and its error
discarded, so a missing or undecodable profile claim leaves the freshly
allocated zero claims. -/
def parseTokenToClaims (token : Option TokenData) : Claims :=
  match token with
  | none => zeroClaims
  | some t =>
    match t.profile with
    | some c => c
    | none => zeroClaims

/-- The Go function `contextClaimsFromToken`. -/
def contextClaimsFromToken (ctx : Context) (token : TokenData) : Context :=
  ContextWithClaims ctx (parseTokenToClaims (some token))

/-- The Go middleware `SetContextClaimsFromToken`, abstracted over the
downstream handler: when the echo slot "token" holds a parsed token, the
handler runs on the request context with the token's claims attached;
when the slot is empty or of another type, the handler runs on the
unchanged request context.  Either way the middleware returns exactly
what the handler returns. -/
def SetContextClaimsFromToken (handler : Context → Except SvcError Unit)
    (tokenSlot : Option EchoVal) (reqCtx : Context) : Except SvcError Unit :=
  match tokenSlot with
  | some (.tok t) => handler (contextClaimsFromToken reqCtx t)
  | _ => handler reqCtx

/-- Fixture: a claims payload for concrete instantiations. -/
def cW : Claims := ⟨"i7", "alice", "LDB"⟩

/-- Fixture: the credential-store record of user alice. -/
def userW : User := ⟨"1", "alice", "LDB", "pw123", 0⟩

/-- Fixture: a credential store resolving exactly the username alice. -/
def dbW : Db := fun uname => if uname = "alice" then .ok userW else .error .userNotFound

/-- Fixture: the access-domain key. -/
def kA : SymmetricKey := ⟨0⟩

/-- Fixture: the refresh-domain key. -/
def kR : SymmetricKey := ⟨1⟩

/-- Fixture: a token encrypted under neither configured key. -/
def wrongKeyTokenW : EncryptedToken := issue cW 0 1000 ⟨9⟩

/-- Fixture: an unexpired refresh-domain token with no decodable profile
claim. -/
def noProfileTokenW : EncryptedToken := V4Encrypt ⟨"s", 0, 0, 1000, 0, none⟩ kR

/-- Fixture: an unexpired refresh-domain token naming a username the
store no longer resolves. -/
def ghostTokenW : EncryptedToken := issue ⟨"2", "ghost", "LDB"⟩ 0 1000 kR

/-- Fixture: an unexpired refresh-domain token for alice carrying stale
attributes from an earlier issuance. -/
def staleTokenW : EncryptedToken := issue ⟨"old-id", "alice", "OLD"⟩ 0 1000 kR

/-- Fixture: a request context whose verified claims name a username the
store no longer resolves. -/
def ghostCtxW : Context := ContextWithClaims [] ⟨"2", "ghost", "LDB"⟩

/-- Fixture: a request context carrying alice's verified claims. -/
def aliceCtxW : Context := ContextWithClaims [] cW

/-- Fixture: a downstream handler that always succeeds. -/
def okHandlerW : Context → Except SvcError Unit := fun _ => .ok ()

/-- Prepending the same string is injective. -/
theorem strPrepend_inj (p a b : String) : (p ++ a = p ++ b) ↔ a = b := by
  constructor
  · intro h
    have hd : p.data ++ a.data = p.data ++ b.data := by
      simpa [String.ext_iff] using h
    exact String.ext (List.append_cancel_left hd)
  · intro h; rw [h]

/-- Two symbolic bcrypt hashes agree exactly when their preimages do. -/
theorem bcryptHashString_beq (a b : String) :
    (bcryptHashString a == bcryptHashString b) = (a == b) := by
  simp only [bcryptHashString, beq_iff_eq]
  by_cases h : a = b
  · simp [h]
  · simp [h, (strPrepend_inj _ a b).ne.mpr h]

/-- Claim C1: verifying a token issued for claims C with expiration
now + L under the same key domain returns exactly C at any verification
time t with now ≤ t < now + L, and fails with an expiration error at any
t ≥ now + L. -/
theorem issue_verify_roundtrip (c : Claims) (key : SymmetricKey) (now L t : Nat)
    (hL : 0 < L) (hnt : now ≤ t) :
    (t < now + L → verify key (issue c now (now + L) key) t = .ok c) ∧
    (now + L ≤ t → verify key (issue c now (now + L) key) t = .error .expired) := by
  constructor <;> intro h
  · have h1 : ¬ (t < now) := by omega
    have h2 : ¬ (now + L ≤ t) := by omega
    simp [verify, parseV4Local, issue, V4Encrypt, h1, h2]
  · have h1 : ¬ (t < now) := by omega
    simp [verify, parseV4Local, issue, V4Encrypt, h1, h]

/-- Witness for C1 at concrete inputs: a token issued at time 100 with
lifetime 100 verifies at time 150 and is expired at time 200. -/
theorem issue_verify_roundtrip_witness :
    verify kA (issue cW 100 (100 + 100) kA) 150 = .ok cW ∧
    verify kA (issue cW 100 (100 + 100) kA) 200 = .error .expired :=
  ⟨(issue_verify_roundtrip cW kA 100 100 150 (by decide) (by decide)).1 (by decide),
   (issue_verify_roundtrip cW kA 100 100 200 (by decide) (by decide)).2 (by decide)⟩

/-- Claim C2: a token pair issued by genToken has its access token fail
verification under the refresh-domain key and its refresh token fail
verification under the access-domain key, at every verification time,
whenever the two configured keys are distinct. -/
theorem cross_domain_verification_fails (aKey rKey : SymmetricKey)
    (h : aKey ≠ rKey) (user : User) (now t : Nat) :
    verify rKey ((genToken aKey rKey user now).AccessToken) t = .error .invalid ∧
    verify aKey ((genToken aKey rKey user now).RefreshToken) t = .error .invalid := by
  constructor <;> simp [verify, parseV4Local, genToken, V4Encrypt, h, Ne.symm h]

/-- Witness for C2 at the concrete key pair and user of the fixtures,
verifying at the issuance instant itself. -/
theorem cross_domain_verification_fails_witness :
    verify kR ((genToken kA kR userW 100).AccessToken) 100 = .error .invalid ∧
    verify kA ((genToken kA kR userW 100).RefreshToken) 100 = .error .invalid :=
  cross_domain_verification_fails kA kR (by decide) userW 100 100

/-- Claim C3 (divergence of the code from the spec contract): the spec
contract accepts the plaintext whose bcrypt hash is the stored verifier,
but the code method Compare bcrypt-hashes the stored verifier itself and
so rejects that very plaintext; in general the code accepts exactly the
supplied password that is byte-identical to the stored field. -/
theorem compare_rehashes_stored_verifier :
    compareContract (bcryptHashString ("secret")) ("secret") = true ∧
    User.Compare ⟨"1", "alice", "LDB", bcryptHashString ("secret"), 0⟩ ("secret") = false ∧
    ∀ (u : User) (pw : String), User.Compare u pw = (u.password == pw) := by
  refine ⟨rfl, rfl, ?_⟩
  intro u pw
  unfold User.Compare bcryptCompareOK bcryptGenerateFromPassword
  exact bcryptHashString_beq u.password pw

/-- Claim C4: an unknown username and a wrong password produce the same
Login error value, and every failure path of RefreshToken (unparseable
or expired token, missing claims payload, unknown identity) produces
that same value: the uniform authFailed status with one message. -/
theorem login_refresh_uniform_failure (db : Db) (aKey rKey : SymmetricKey)
    (now : Nat) (uname pw : String) (user : User) (tok : EncryptedToken) :
    (db uname = .error .userNotFound →
      Login db aKey rKey now ⟨uname, pw⟩ = .error authFailed) ∧
    (db uname = .ok user → User.Compare user pw = false →
      Login db aKey rKey now ⟨uname, pw⟩ = .error authFailed) ∧
    (∀ e, parseV4Local rKey tok now = .error e →
      RefreshToken db aKey rKey now ⟨tok⟩ = .error authFailed) ∧
    (∀ td, parseV4Local rKey tok now = .ok td → td.profile = none →
      RefreshToken db aKey rKey now ⟨tok⟩ = .error authFailed) ∧
    (∀ td c, parseV4Local rKey tok now = .ok td → td.profile = some c →
      db c.Username = .error .userNotFound →
      RefreshToken db aKey rKey now ⟨tok⟩ = .error authFailed) := by
  refine ⟨?_, ?_, ?_, ?_, ?_⟩
  · intro h; simp [Login, h]
  · intro h hc; simp [Login, h, hc]
  · intro e h; simp [RefreshToken, h]
  · intro td h hp; simp [RefreshToken, h, hp]
  · intro td c h hp hdb; simp [RefreshToken, h, hp, hdb]

/-- Witness for C4: all five failure causes at concrete inputs yield the
one authFailed value. -/
theorem login_refresh_uniform_failure_witness :
    Login dbW kA kR 100 ⟨"ghost", "whatever"⟩ = .error authFailed ∧
    Login dbW kA kR 100 ⟨"alice", "wrong"⟩ = .error authFailed ∧
    RefreshToken dbW kA kR 100 ⟨wrongKeyTokenW⟩ = .error authFailed ∧
    RefreshToken dbW kA kR 100 ⟨noProfileTokenW⟩ = .error authFailed ∧
    RefreshToken dbW kA kR 100 ⟨ghostTokenW⟩ = .error authFailed :=
  ⟨(login_refresh_uniform_failure dbW kA kR 100 "ghost" "whatever" userW
      wrongKeyTokenW).1 (by rfl),
   (login_refresh_uniform_failure dbW kA kR 100 "alice" "wrong" userW
      wrongKeyTokenW).2.1 (by rfl) (by rfl),
   (login_refresh_uniform_failure dbW kA kR 100 "u" "p" userW
      wrongKeyTokenW).2.2.1 .invalid (by rfl),
   (login_refresh_uniform_failure dbW kA kR 100 "u" "p" userW
      noProfileTokenW).2.2.2.1 ⟨"s", 0, 0, 1000, 0, none⟩ (by rfl) (by rfl),
   (login_refresh_uniform_failure dbW kA kR 100 "u" "p" userW
      ghostTokenW).2.2.2.2 ⟨"ghost", 0, 0, 1000, 0, some ⟨"2", "ghost", "LDB"⟩⟩
      ⟨"2", "ghost", "LDB"⟩ (by rfl) (by rfl) (by rfl)⟩

/-- Claim C5: for a refresh token that verifies under the refresh-domain
key and yields claims, RefreshToken re-resolves the embedded username in
the credential store; when it resolves to a user the result is the fresh
pair for that CURRENT user, both tokens embedding the current
store-state claims, and the new access token independently verifies;
when the username no longer resolves the result is authFailed. -/
theorem refresh_reissues_current_claims (db : Db) (aKey rKey : SymmetricKey)
    (now : Nat) (tok : EncryptedToken) (td : TokenData) (c : Claims)
    (hparse : parseV4Local rKey tok now = .ok td) (hprof : td.profile = some c) :
    (∀ user, db c.Username = .ok user →
      RefreshToken db aKey rKey now ⟨tok⟩ = .ok (genToken aKey rKey user now) ∧
      (genToken aKey rKey user now).AccessToken.payload.profile
        = some ⟨user.ID, user.Username, user.ProductName⟩ ∧
      (genToken aKey rKey user now).RefreshToken.payload.profile
        = some ⟨user.ID, user.Username, user.ProductName⟩ ∧
      verify aKey (genToken aKey rKey user now).AccessToken now
        = .ok ⟨user.ID, user.Username, user.ProductName⟩) ∧
    (db c.Username = .error .userNotFound →
      RefreshToken db aKey rKey now ⟨tok⟩ = .error authFailed) := by
  constructor
  · intro user hdb
    refine ⟨by simp [RefreshToken, hparse, hprof, hdb], rfl, rfl, ?_⟩
    simp [verify, parseV4Local, genToken, V4Encrypt]
  · intro hdb; simp [RefreshToken, hparse, hprof, hdb]

/-- Witness for C5: exchanging a stale refresh token for alice yields
the pair embedding alice's current store state, and the new access token
verifies at the exchange time. -/
theorem refresh_reissues_current_claims_witness :
    RefreshToken dbW kA kR 100 ⟨staleTokenW⟩ = .ok (genToken kA kR userW 100) ∧
    (genToken kA kR userW 100).AccessToken.payload.profile
      = some ⟨"1", "alice", "LDB"⟩ ∧
    verify kA (genToken kA kR userW 100).AccessToken 100
      = .ok ⟨"1", "alice", "LDB"⟩ :=
  have h := (refresh_reissues_current_claims dbW kA kR 100 staleTokenW
      ⟨"alice", 0, 0, 1000, 0, some ⟨"old-id", "alice", "OLD"⟩⟩
      ⟨"old-id", "alice", "OLD"⟩ (by rfl) (by rfl)).1 userW (by rfl)
  ⟨h.1, h.2.1, h.2.2.2⟩

/-- Claim C6: genToken gives the access token expiration now + one hour
and the refresh token expiration now + seven days, and both tokens embed
the same claims projection of the user, the same subject, issued-at,
not-before and issuance-timestamp footer, encrypted under their
respective domain keys. -/
theorem genToken_pair_shape (aKey rKey : SymmetricKey) (user : User) (now : Nat) :
    (genToken aKey rKey user now).AccessToken.payload.expiration = now + 3600 ∧
    (genToken aKey rKey user now).RefreshToken.payload.expiration
      = now + 7 * 24 * 3600 ∧
    (genToken aKey rKey user now).AccessToken.payload.profile
      = some ⟨user.ID, user.Username, user.ProductName⟩ ∧
    (genToken aKey rKey user now).RefreshToken.payload.profile
      = some ⟨user.ID, user.Username, user.ProductName⟩ ∧
    (genToken aKey rKey user now).AccessToken.payload.subject = user.Username ∧
    (genToken aKey rKey user now).RefreshToken.payload.subject = user.Username ∧
    (genToken aKey rKey user now).AccessToken.payload.issuedAt = now ∧
    (genToken aKey rKey user now).RefreshToken.payload.issuedAt = now ∧
    (genToken aKey rKey user now).AccessToken.payload.notBefore = now ∧
    (genToken aKey rKey user now).RefreshToken.payload.notBefore = now ∧
    (genToken aKey rKey user now).AccessToken.payload.footer = now ∧
    (genToken aKey rKey user now).RefreshToken.payload.footer = now ∧
    (genToken aKey rKey user now).AccessToken.key = aKey ∧
    (genToken aKey rKey user now).RefreshToken.key = rKey :=
  ⟨rfl, rfl, rfl, rfl, rfl, rfl, rfl, rfl, rfl, rfl, rfl, rfl, rfl, rfl⟩

/-- Claim C7: reading claims from a context derived by ContextWithClaims
returns exactly the attached claims, for EVERY context, including one
already carrying a claims entry that the attach shadows; and reading
from any context to which no claims value was ever attached returns the
zero-value Claims rather than an error. -/
theorem claims_attach_roundtrip_zero_default (ctx : Context) (c : Claims) :
    ClaimsFromContext (ContextWithClaims ctx c) = c ∧
    ((∀ cv : Claims, ctxValue ctx claimsKey ≠ some (.claimsVal cv)) →
      ClaimsFromContext ctx = zeroClaims) := by
  constructor
  · simp [ClaimsFromContext, ContextWithClaims, ctxValue, claimsKey]
  · intro hnone
    unfold ClaimsFromContext
    cases h : ctxValue ctx claimsKey with
    | none => rfl
    | some v =>
      cases v with
      | claimsVal cv => exact absurd h (hnone cv)
      | otherVal n => rfl

/-- Witness for C7: the round-trip on a claims-free context and on a
context whose prior claims entry gets shadowed, and the zero default on
a context that only carries an unrelated entry. -/
theorem claims_attach_roundtrip_zero_default_witness :
    ClaimsFromContext (ContextWithClaims [(5, .otherVal 3)] cW) = cW ∧
    ClaimsFromContext (ContextWithClaims aliceCtxW ⟨"2", "ghost", "LDB"⟩)
      = ⟨"2", "ghost", "LDB"⟩ ∧
    ClaimsFromContext [(5, .otherVal 3)] = zeroClaims :=
  ⟨(claims_attach_roundtrip_zero_default [(5, .otherVal 3)] cW).1,
   (claims_attach_roundtrip_zero_default aliceCtxW ⟨"2", "ghost", "LDB"⟩).1,
   (claims_attach_roundtrip_zero_default [(5, .otherVal 3)] cW).2
     (by intro cv; simp [ctxValue, claimsKey])⟩

/-- Claim C8: Profile re-resolves the username carried in the current
request's claims and returns the permission-denied status exactly when
that username no longer resolves in the credential store; when it does
resolve, the resolved identity is returned. -/
theorem profile_permission_denied_iff (db : Db) (ctx : Context) :
    (Profile db ctx = .error (.rpc .permissionDenied profileDeniedMsg) ↔
      db (ClaimsFromContext ctx).Username = .error .userNotFound) ∧
    (∀ user, db (ClaimsFromContext ctx).Username = .ok user →
      Profile db ctx = .ok user) := by
  constructor
  · unfold Profile
    cases h : db (ClaimsFromContext ctx).Username with
    | ok user => simp
    | error e =>
      cases e with
      | userNotFound => simp
      | dbError m => simp
  · intro user h; simp [Profile, h]

/-- Witness for C8: a vanished username is rejected as permission
denied, a resolving username returns its record. -/
theorem profile_permission_denied_iff_witness :
    Profile dbW ghostCtxW = .error (.rpc .permissionDenied profileDeniedMsg) ∧
    Profile dbW aliceCtxW = .ok userW :=
  ⟨(profile_permission_denied_iff dbW ghostCtxW).1.mpr (by rfl),
   (profile_permission_denied_iff dbW aliceCtxW).2 userW (by rfl)⟩

/-- Counterexample to C9 as stated: the header value with no space after
the scheme literal still yields a credential from the extractor, while
the claim's contract calls it no-credential. -/
theorem pasetoFromHeader_no_space_counterexample :
    pasetoFromHeader ("Bearer") ("BearerXab") = .ok ("ab") ∧
    bearerContract ("Bearer") ("BearerXab") = none :=
  ⟨rfl, rfl⟩

/-- List form of the extractor prefix: taking the scheme length from a
well-formed header returns the scheme. -/
theorem extract_take (scheme tok : String) :
    strTake (scheme ++ " " ++ tok) (strLen scheme) = scheme := by
  apply String.ext
  show List.take (strLen scheme) ((scheme ++ " ") ++ tok).data = scheme.data
  rw [String.data_append, String.data_append, List.append_assoc]
  exact List.take_left scheme.data _

/-- List form of the extractor suffix: dropping past the separator of a
well-formed header returns the token. -/
theorem extract_drop (scheme tok : String) :
    strDrop (scheme ++ " " ++ tok) (strLen scheme + 1) = tok := by
  apply String.ext
  show List.drop (strLen scheme + 1) ((scheme ++ " ") ++ tok).data = tok.data
  rw [String.data_append]
  exact List.drop_left' (by simp [String.data_append, strLen])

/-- A well-formed header with a non-empty token is longer than the
scheme plus separator. -/
theorem extract_len (scheme tok : String) (h : tok ≠ "") :
    strLen (scheme ++ " " ++ tok) > strLen scheme + 1 := by
  have htokne : tok.data ≠ [] := fun hd => h (String.ext hd)
  have hpos : 0 < tok.data.length := List.length_pos.mpr htokne
  simp only [strLen, String.data_append, List.length_append, List.length_cons,
    List.length_nil]
  omega

/-- Claim C9 as amended: the extractor yields the token on every header
of the form scheme, one space, non-empty token; but in general it yields
a credential exactly when the header is longer than the scheme length
plus one and starts with the scheme literal, skipping the character at
the scheme length without requiring it to be a space, and the credential
is the remainder after that position. -/
theorem pasetoFromHeader_extraction (scheme tok auth : String) (hne : tok ≠ "") :
    pasetoFromHeader scheme (scheme ++ " " ++ tok) = .ok tok ∧
    (strLen auth > strLen scheme + 1 → strTake auth (strLen scheme) = scheme →
      pasetoFromHeader scheme auth = .ok (strDrop auth (strLen scheme + 1))) ∧
    (∀ cred, pasetoFromHeader scheme auth = .ok cred →
      strLen auth > strLen scheme + 1 ∧ strTake auth (strLen scheme) = scheme ∧
      cred = strDrop auth (strLen scheme + 1)) := by
  refine ⟨?_, ?_, ?_⟩
  · simp [pasetoFromHeader, extract_len scheme tok hne, extract_take, extract_drop]
  · intro h1 h2
    simp [pasetoFromHeader, h1, h2]
  · intro cred h
    unfold pasetoFromHeader at h
    split at h
    · rename_i hc
      refine ⟨hc.1, hc.2, ?_⟩
      injection h with h2
      exact h2.symm
    · cases h

/-- Witness for C9 amended: a well-formed bearer header yields its
token. -/
theorem pasetoFromHeader_extraction_witness :
    pasetoFromHeader ("Bearer") ("Bearer" ++ " " ++ "tok123") = .ok ("tok123") :=
  (pasetoFromHeader_extraction ("Bearer") ("tok123") ("BearerXab") (by decide)).1

/-- Claim C10: when the echo token slot holds a verified token whose
claims payload is not decodable, the middleware attaches the zero-value
claims and invokes the handler, returning exactly the handler's own
result, and the handler reads the request as anonymous. -/
theorem token_without_profile_anonymous (handler : Context → Except SvcError Unit)
    (t : TokenData) (reqCtx : Context) (hprof : t.profile = none) :
    SetContextClaimsFromToken handler (some (.tok t)) reqCtx
      = handler (ContextWithClaims reqCtx zeroClaims) ∧
    ClaimsFromContext (ContextWithClaims reqCtx zeroClaims) = zeroClaims := by
  constructor
  · simp [SetContextClaimsFromToken, contextClaimsFromToken, parseTokenToClaims,
      hprof]
  · simp [ClaimsFromContext, ContextWithClaims, ctxValue, claimsKey]

/-- Witness for C10 on a concrete profile-free token and the
always-succeeding handler. -/
theorem token_without_profile_anonymous_witness :
    SetContextClaimsFromToken okHandlerW (some (.tok ⟨"s", 0, 0, 1000, 0, none⟩)) []
      = okHandlerW (ContextWithClaims [] zeroClaims) ∧
    ClaimsFromContext (ContextWithClaims [] zeroClaims) = zeroClaims :=
  token_without_profile_anonymous okHandlerW ⟨"s", 0, 0, 1000, 0, none⟩ [] rfl

end EStmt
